import Mathlib

/-!
# FlowMind AI — verification of the specified behavior against the shipped code

The repository ships a React single-page UI (`src/components/Dashboard.tsx`
holding the `Dashboard`, `VideoReports`, `TaskManager` and `ChatInterface`
components, and `CalendarView`) whose task, event, suggestion and chat state
lives in component-local lists updated by pure functional-state updates
(`setXs(prev => ...)`).  This file gives a shallow embedding of those state
updates and of the data model, and proves or refutes the specified properties
about them.

Conventions of the embedding:
* JavaScript strings stay `String`; the string operations the code uses
  (`trim`, `toLowerCase`, `includes`, lexicographic comparison) are
  re-implemented over `String.data` so that every definition evaluates
  inside the kernel.
* JavaScript `Date` values (`Date.now()`, `new Date().toISOString()`) are
  modelled by a single `Nat` parameter `now` denoting the current instant;
  the code derives both the fresh `id` and the `created_at`/`timestamp`
  fields from that one instant.
* `setXs(prev => f prev)` is modelled as the list transformer `f`.
* The multi-agent orchestrator backend (`route` and the Tool Layer) is not
  part of the shipped source — the UI only POSTs to `/api/chat` — so it is
  modelled from the spec where a claim needs it, and marked as such.
-/

namespace FlowMind

/-! ## String operations (JavaScript semantics, kernel-computable) -/

/-- Leading and trailing whitespace removal on a character list,
the core of JavaScript `String.prototype.trim`. -/
def trimChars (cs : List Char) : List Char :=
  ((cs.dropWhile Char.isWhitespace).reverse.dropWhile Char.isWhitespace).reverse

/-- JavaScript `s.trim()`. -/
def strTrim (s : String) : String := ⟨trimChars s.data⟩

/-- ASCII lower-casing of one character, as done by `toLowerCase`
on the ASCII identifiers this code compares. -/
def lowerChar (c : Char) : Char :=
  if 65 ≤ c.toNat ∧ c.toNat ≤ 90 then Char.ofNat (c.toNat + 32) else c

/-- JavaScript `s.toLowerCase()` (ASCII fragment). -/
def strLower (s : String) : String := ⟨s.data.map lowerChar⟩

/-- Whether the first list is an initial segment of the second. -/
def startsWithL : List Char → List Char → Bool
  | [], _ => true
  | _ :: _, [] => false
  | p :: ps, c :: cs => p = c && startsWithL ps cs

/-- Whether `pat` occurs contiguously somewhere in the second list. -/
def occursIn (pat : List Char) : List Char → Bool
  | [] => startsWithL pat []
  | c :: cs => startsWithL pat (c :: cs) || occursIn pat cs

/-- JavaScript `s.includes(sub)`. -/
def strIncludes (s sub : String) : Bool := occursIn sub.data s.data

/-- Strict lexicographic order on character lists.  On the fixed-width
ISO-style timestamp strings the code stores (`"2024-01-16T14:00"`),
this coincides with chronological order. -/
def charListLt : List Char → List Char → Bool
  | [], [] => false
  | [], _ :: _ => true
  | _ :: _, [] => false
  | a :: as, b :: bs => a < b || (a = b && charListLt as bs)

/-- Lexicographic `<` on strings (chronological order for the
timestamp strings of this code base). -/
def strLt (a b : String) : Bool := charListLt a.data b.data

/-! ## Task data model and `TaskManager` operations

From the `Task` interface and the `TaskManager` component in
`src/components/Dashboard.tsx`. -/

/-- Priority union type of the `Task` interface: low, medium, high. -/
inductive Priority where
  | low
  | medium
  | high
  deriving DecidableEq

/-- Status union type of the `Task` interface: pending, in_progress, completed. -/
inductive TaskStatus where
  | pending
  | in_progress
  | completed
  deriving DecidableEq

/-- The string literal each status value is written as in the code;
used where the code compares `task.status === filter`. -/
def statusString : TaskStatus → String
  | TaskStatus.pending => "pending"
  | TaskStatus.in_progress => "in_progress"
  | TaskStatus.completed => "completed"

/-- The `Task` interface.  `created_at` is a `Date` value, modelled as `Nat`. -/
structure Task where
  id : String
  title : String
  description : Option String
  priority : Priority
  status : TaskStatus
  due_date : Option String
  created_at : Nat
  deriving DecidableEq

/-- The `newTask` form state of `TaskManager`. -/
structure NewTask where
  title : String
  description : String
  priority : Priority
  due_date : String
  deriving DecidableEq

/-- The initial `newTask` state: empty title, description and due date,
and priority preset to medium. -/
def initialNewTask : NewTask :=
  { title := "", description := "", priority := Priority.medium, due_date := "" }

/-- The mock task list installed by `fetchTasks` in `TaskManager`
(the `created_at` date strings are rendered as `Nat` date stamps). -/
def mockTasks : List Task :=
  [ { id := "1", title := "Review quarterly reports",
      description := some "Analyze Q4 performance metrics",
      priority := Priority.high, status := TaskStatus.pending,
      due_date := some "2024-01-20", created_at := 20240115 },
    { id := "2", title := "Prepare client presentation",
      description := some "Create slides for next week\x27s meeting",
      priority := Priority.high, status := TaskStatus.in_progress,
      due_date := some "2024-01-18", created_at := 20240114 },
    { id := "3", title := "Update project documentation",
      description := some "Add recent changes to the docs",
      priority := Priority.medium, status := TaskStatus.pending,
      due_date := some "2024-01-25", created_at := 20240113 },
    { id := "4", title := "Team one-on-ones",
      description := some "Schedule individual meetings",
      priority := Priority.medium, status := TaskStatus.completed,
      due_date := some "2024-01-16", created_at := 20240112 },
    { id := "5", title := "Code review",
      description := some "Review pull requests",
      priority := Priority.low, status := TaskStatus.pending,
      due_date := none, created_at := 20240115 } ]

/-- Function `addTask` of `TaskManager`: guard
`if (!newTask.title.trim()) return;`, then prepend the new task — id from
`Date.now().toString()`, status "pending", `due_date: newTask.due_date || undefined`,
`created_at` from the current instant — via `setTasks(prev => [task, ...prev])`. -/
def addTask (now : Nat) (newTask : NewTask) (tasks : List Task) : List Task :=
  if strTrim newTask.title = "" then tasks
  else
    { id := toString now
      title := newTask.title
      description := some newTask.description
      priority := newTask.priority
      status := TaskStatus.pending
      due_date := if newTask.due_date = "" then none else some newTask.due_date
      created_at := now } :: tasks

/-- Function `updateTaskStatus` of `TaskManager`:
`setTasks(prev => prev.map(task => task.id === taskId ? { ...task, status } : task))`. -/
def updateTaskStatus (taskId : String) (status : TaskStatus) (tasks : List Task) : List Task :=
  tasks.map fun task => if task.id = taskId then { task with status := status } else task

/-- The outcome `updateTaskStatus` reports: its body is a pure list map
inside `try { ... } catch`, so the `catch` branch is unreachable and the
operation always reports success with the mapped list. -/
def updateTaskStatusResult (taskId : String) (status : TaskStatus) (tasks : List Task) :
    Except String (List Task) :=
  Except.ok (updateTaskStatus taskId status tasks)

/-- The complete-task operation: every "complete" call site in `TaskManager`
(the status-icon toggle on a non-completed task and the `Complete` button)
invokes `updateTaskStatus` with status "completed". -/
def completeTask (taskId : String) (tasks : List Task) : List Task :=
  updateTaskStatus taskId TaskStatus.completed tasks

/-- Function `filterTasks` of `TaskManager`: status filter when the filter
differs from "all", then case-insensitive title/description search when
`searchTerm` is nonempty. -/
def filterTasks (filter : String) (searchTerm : String) (tasks : List Task) : List Task :=
  let filtered := if filter ≠ "all"
    then tasks.filter (fun task => statusString task.status = filter)
    else tasks
  if searchTerm ≠ "" then
    filtered.filter fun task =>
      strIncludes (strLower task.title) (strLower searchTerm) ||
      (match task.description with
       | some d => strIncludes (strLower d) (strLower searchTerm)
       | none => false)
  else filtered

/-! ## Event data model and `CalendarView.addEvent`

From the `Event` interface and the `CalendarView` component
(`src/unnamed/part_003`). -/

/-- The `Event` interface.  `start_time`/`end_time` are the
`datetime-local` strings the form stores. -/
structure Event where
  id : String
  title : String
  description : Option String
  start_time : String
  end_time : String
  location : Option String
  deriving DecidableEq

/-- The `newEvent` form state of `CalendarView`. -/
structure NewEvent where
  title : String
  description : String
  start_time : String
  end_time : String
  location : String
  deriving DecidableEq

/-- Function `addEvent` of `CalendarView`: guard
`if (!newEvent.title.trim() || !newEvent.start_time || !newEvent.end_time) return;`,
then append the new event via `setEvents(prev => [...prev, event])`.
No comparison of `end_time` against `start_time` appears anywhere in the body. -/
def addEvent (now : Nat) (newEvent : NewEvent) (events : List Event) : List Event :=
  if strTrim newEvent.title = "" ∨ newEvent.start_time = "" ∨ newEvent.end_time = "" then
    events
  else
    events ++
      [{ id := toString now
         title := newEvent.title
         description := some newEvent.description
         start_time := newEvent.start_time
         end_time := newEvent.end_time
         location := some newEvent.location }]

/-! ## Suggestions and the `Dashboard` component -/

/-- The suggestion objects of the `Dashboard` component (`id` is a JS
number there; `priority` is the plain string the mock data carries). -/
structure Suggestion where
  id : Nat
  type : String
  title : String
  description : String
  priority : String
  deriving DecidableEq

/-- The mock suggestion list installed by `fetchDashboardData`. -/
def mockSuggestions : List Suggestion :=
  [ { id := 1, type := "schedule_task",
      title := "Schedule high-priority task",
      description := "You have a free slot at 2 PM to work on \"Quarterly Report\"",
      priority := "high" },
    { id := 2, type := "break_reminder",
      title := "Take a break",
      description := "You\x27ve been working for 2 hours. Consider a 15-minute break.",
      priority := "medium" },
    { id := 3, type := "priority_review",
      title := "Review task priorities",
      description := "You have 5 high-priority tasks. Consider redistributing priorities.",
      priority := "low" } ]

/-- Function `handleSuggestionAction` of `Dashboard`: for both the `Accept` and the
`Dismiss` button it runs
`setSuggestions(prev => prev.filter(s => s.id !== suggestionId))`;
the `action` string is only logged, never branched on. -/
def handleSuggestionAction (suggestionId : Nat) (action : String)
    (suggestions : List Suggestion) : List Suggestion :=
  suggestions.filter fun s => s.id ≠ suggestionId

/-- The component state `handleSuggestionAction` can reach, extended with
the task and event lists held elsewhere in the application: the handler
calls only `setSuggestions`, so tasks and events pass through unchanged. -/
structure DashboardState where
  suggestions : List Suggestion
  tasks : List Task
  events : List Event
  deriving DecidableEq

/-- The suggestion-action handler lifted to the full application state. -/
def handleSuggestionActionState (suggestionId : Nat) (action : String)
    (st : DashboardState) : DashboardState :=
  { st with suggestions := handleSuggestionAction suggestionId action st.suggestions }

/-! ## Chat messages and `ChatInterface.sendMessage` -/

/-- Sender union type of the `Message` interface: user or agent. -/
inductive Sender where
  | user
  | agent
  deriving DecidableEq

/-- The `Message` interface of `ChatInterface` (`timestamp` is a `Date`,
modelled as `Nat`). -/
structure Message where
  id : String
  content : String
  sender : Sender
  agent : Option String
  timestamp : Nat
  deriving DecidableEq

/-- The outcome of the `/api/chat` round trip inside `sendMessage`:
either the parsed `{ response, agent }` body, or any thrown error
(network failure, or the "Failed to get response" error thrown on
`!response.ok`). -/
inductive ChatOutcome where
  | ok (response : String) (agentName : String)
  | failed (error : String)
  deriving DecidableEq

/-- The fixed fallback text of the `catch` branch of `sendMessage`. -/
def fallbackContent : String :=
  "I\x27m experiencing some technical difficulties right now, but I\x27m here to help! You can ask me to:\n\n• Add, complete, or list tasks\n• Schedule events or check your calendar\n• Explain concepts or provide information\n• Give you productivity suggestions\n\nWhat would you like to try?"

/-- Function `sendMessage` of `ChatInterface`: guard
`if (!inputValue.trim() || isLoading) return;`, append the user message,
then on success append the agent message built from the response data and
on any caught error append the fixed `MindFlow`-attributed fallback message. -/
def sendMessage (now : Nat) (inputValue : String) (isLoading : Bool)
    (messages : List Message) (outcome : ChatOutcome) : List Message :=
  if strTrim inputValue = "" ∨ isLoading then messages
  else
    let userMessage : Message :=
      { id := toString now, content := inputValue, sender := Sender.user,
        agent := none, timestamp := now }
    match outcome with
    | ChatOutcome.ok response agentName =>
        (messages ++ [userMessage]) ++
          [{ id := toString (now + 1), content := response, sender := Sender.agent,
             agent := some agentName, timestamp := now }]
    | ChatOutcome.failed _ =>
        (messages ++ [userMessage]) ++
          [{ id := toString (now + 1), content := fallbackContent, sender := Sender.agent,
             agent := some "MindFlow", timestamp := now }]

/-! ## The MindFlow message router

The orchestrator backend is not part of the shipped source: the UI only
POSTs `{ message, user_id }` to `/api/chat`.  The router is therefore
modelled from the spec. -/

/-- The four agent names of the entry-point contract. -/
inductive Agent where
  | MindFlow
  | TaskFlow
  | CalendarFlow
  | InfoFlow
  deriving DecidableEq

/-- Modelled from the spec: the TaskFlow intent patterns of the §4.2 mapping
table ("add/create task, complete task, delete task, list/show tasks");
the routing backend that would hold them is missing from the source. -/
def taskFlowPatterns : List String :=
  ["add task", "create task", "complete task", "delete task", "list tasks", "show tasks"]

/-- Modelled from the spec: the CalendarFlow intent patterns of the §4.2
mapping table ("schedule/add event, what do I have on <date>, list events"). -/
def calendarFlowPatterns : List String :=
  ["schedule event", "add event", "what do I have on", "list events"]

/-- Modelled from the spec: the InfoFlow intent patterns of the §4.2 mapping
table ("summarize <topic>, explain <topic>, general question"). -/
def infoFlowPatterns : List String :=
  ["summarize", "explain"]

/-- Whether a message matches one of the intent patterns of an agent
(substring matching, as in the agent-node sketches of `ai_docs/tasks`). -/
def matchesPatterns (patterns : List String) (message : String) : Bool :=
  patterns.any fun p => strIncludes message p

/-- Modelled from the spec: `route` classifies the message against each
Worker Agent intent pattern list in the fixed priority order TaskFlow,
CalendarFlow, InfoFlow — first match wins — and otherwise MindFlow itself
answers; the routing backend is missing from the source. -/
def route (message : String) : Agent :=
  if matchesPatterns taskFlowPatterns message then Agent.TaskFlow
  else if matchesPatterns calendarFlowPatterns message then Agent.CalendarFlow
  else if matchesPatterns infoFlowPatterns message then Agent.InfoFlow
  else Agent.MindFlow

/-! ## Task-status transitions reachable through the `TaskManager` UI -/

/-- Rank of a status along the `pending → in_progress → completed` line. -/
def statusRank : TaskStatus → Nat
  | TaskStatus.pending => 0
  | TaskStatus.in_progress => 1
  | TaskStatus.completed => 2

/-- The status changes reachable through `TaskManager`: the status-icon
toggle (to "pending" when the status is "completed", to "completed"
otherwise), the `Start` button (rendered only for a "pending" task), and
the `Complete` button (rendered only for an "in_progress" task).
These are the only call sites of `updateTaskStatus`. -/
inductive UIStatusStep : TaskStatus → TaskStatus → Prop where
  | toggle (s : TaskStatus) :
      UIStatusStep s (if s = TaskStatus.completed then TaskStatus.pending else TaskStatus.completed)
  | start : UIStatusStep TaskStatus.pending TaskStatus.in_progress
  | complete : UIStatusStep TaskStatus.in_progress TaskStatus.completed

/-! ## Helper lemmas -/

/-- Setting the same status twice through `updateTaskStatus` is the same as
setting it once. -/
theorem updateTaskStatus_idem (taskId : String) (status : TaskStatus) (tasks : List Task) :
    updateTaskStatus taskId status (updateTaskStatus taskId status tasks) =
      updateTaskStatus taskId status tasks := by
  induction tasks with
  | nil => rfl
  | cons t ts ih =>
    simp only [updateTaskStatus, List.map_cons, List.cons.injEq] at ih ⊢
    refine ⟨?_, ih⟩
    by_cases h : t.id = taskId <;> simp [h]

/-- `updateTaskStatus` is the identity when every task carrying the target id
already has the target status. -/
theorem updateTaskStatus_eq_self_of_status (taskId : String) (status : TaskStatus)
    (tasks : List Task) (h : ∀ t ∈ tasks, t.id = taskId → t.status = status) :
    updateTaskStatus taskId status tasks = tasks := by
  induction tasks with
  | nil => rfl
  | cons t ts ih =>
    simp only [updateTaskStatus, List.map_cons, List.cons.injEq] at ih ⊢
    refine ⟨?_, ih fun x hx hxid => h x (List.mem_cons_of_mem _ hx) hxid⟩
    by_cases hid : t.id = taskId
    · have hst : t.status = status := h t (List.mem_cons_self _ _) hid
      cases t
      simp_all
    · simp [hid]

/-- `updateTaskStatus` is the identity when no task carries the target id. -/
theorem updateTaskStatus_eq_self_of_not_mem (taskId : String) (status : TaskStatus)
    (tasks : List Task) (h : ∀ t ∈ tasks, t.id ≠ taskId) :
    updateTaskStatus taskId status tasks = tasks :=
  updateTaskStatus_eq_self_of_status taskId status tasks
    fun t ht hid => absurd hid (h t ht)

/-! ## Claim C3 — completing a task is idempotent -/

/-- Claim C3: for every task list and every task id present in it, completing
the task twice in sequence yields the same final task list as completing it
once, and completing an already-completed task is a no-op success. -/
theorem completeTask_idempotent (tasks : List Task) (taskId : String)
    (hmem : taskId ∈ tasks.map Task.id) :
    completeTask taskId (completeTask taskId tasks) = completeTask taskId tasks ∧
    ((∀ t ∈ tasks, t.id = taskId → t.status = TaskStatus.completed) →
      completeTask taskId tasks = tasks) :=
  ⟨updateTaskStatus_idem taskId TaskStatus.completed tasks,
   fun h => updateTaskStatus_eq_self_of_status taskId TaskStatus.completed tasks h⟩

/-- Witness for claim C3 at the mock task list: id "4" is present (and already
completed, so completion is also a no-op there). -/
theorem completeTask_idempotent_witness :
    "4" ∈ mockTasks.map Task.id ∧
    (completeTask "4" (completeTask "4" mockTasks) = completeTask "4" mockTasks ∧
      ((∀ t ∈ mockTasks, t.id = "4" → t.status = TaskStatus.completed) →
        completeTask "4" mockTasks = mockTasks)) :=
  ⟨by decide, completeTask_idempotent mockTasks "4" (by decide)⟩

/-! ## Claim C4 — completing an unknown id does not fail -/

/-- Claim C4 counterexample: completing the unknown id "42" against the mock
task list reports success with the task list unchanged — the operation has no
NotFoundError outcome, contradicting the claim that an unknown id fails. -/
theorem completeTask_unknown_id_silent :
    updateTaskStatusResult "42" TaskStatus.completed mockTasks = Except.ok mockTasks := by
  have h : updateTaskStatus "42" TaskStatus.completed mockTasks = mockTasks := by decide
  simp [updateTaskStatusResult, h]

/-- Claim C4 (amended): completing a task with an unknown id succeeds
silently — the operation reports success and leaves the task list unchanged;
no NotFoundError is reported. -/
theorem completeTask_unknown_id_noop (tasks : List Task) (taskId : String)
    (h : ∀ t ∈ tasks, t.id ≠ taskId) :
    updateTaskStatusResult taskId TaskStatus.completed tasks = Except.ok tasks := by
  unfold updateTaskStatusResult
  rw [updateTaskStatus_eq_self_of_not_mem taskId TaskStatus.completed tasks h]

/-- Witness for the amended claim C4: id "42" is absent from the mock task
list, and completing it succeeds with the list unchanged. -/
theorem completeTask_unknown_id_noop_witness :
    (∀ t ∈ mockTasks, t.id ≠ "42") ∧
    updateTaskStatusResult "42" TaskStatus.completed mockTasks = Except.ok mockTasks :=
  ⟨by decide, completeTask_unknown_id_noop mockTasks "42" (by decide)⟩

/-! ## Claim C5 — new tasks are pending with default priority medium -/

/-- Claim C5: adding a task with a non-blank title prepends a task whose
status is pending, whose priority — when the form priority was left at its
initial default — is medium, and whose title is the given title; the rest of
the list is unchanged. -/
theorem addTask_pending_default_medium (now : Nat) (tasks : List Task) (newTask : NewTask)
    (htitle : strTrim newTask.title ≠ "")
    (hprio : newTask.priority = initialNewTask.priority) :
    (addTask now newTask tasks).head?.map Task.status = some TaskStatus.pending ∧
    (addTask now newTask tasks).head?.map Task.priority = some Priority.medium ∧
    (addTask now newTask tasks).head?.map Task.title = some newTask.title ∧
    (addTask now newTask tasks).tail = tasks := by
  have hmed : newTask.priority = Priority.medium := hprio
  simp [addTask, htitle, hmed]

/-- The form state after typing the title "Review reports" and touching no
other field (spec scenario 1). -/
def reviewReportsForm : NewTask :=
  { initialNewTask with title := "Review reports" }

/-- Witness for claim C5: adding "Review reports" with the untouched default
priority produces a pending, medium-priority task. -/
theorem addTask_pending_default_medium_witness :
    strTrim reviewReportsForm.title ≠ "" ∧
    reviewReportsForm.priority = initialNewTask.priority ∧
    ((addTask 1705 reviewReportsForm []).head?.map Task.status = some TaskStatus.pending ∧
      (addTask 1705 reviewReportsForm []).head?.map Task.priority = some Priority.medium ∧
      (addTask 1705 reviewReportsForm []).head?.map Task.title = some reviewReportsForm.title ∧
      (addTask 1705 reviewReportsForm []).tail = []) :=
  ⟨by decide, rfl,
   addTask_pending_default_medium 1705 [] reviewReportsForm (by decide) rfl⟩

/-! ## Claim C6 — event creation does not validate end against start -/

/-- A filled event form whose end time precedes its start time. -/
def reversedNewEvent : NewEvent :=
  { title := "Backwards meeting", description := "", start_time := "2024-01-16T15:00",
    end_time := "2024-01-16T14:00", location := "" }

/-- Claim C6 counterexample: an event whose end timestamp strictly precedes
its start timestamp is appended to the event list with no validation failure,
contradicting the claim that such creation fails with ValidationError. -/
theorem addEvent_accepts_end_before_start :
    strLt reversedNewEvent.end_time reversedNewEvent.start_time = true ∧
    addEvent 99 reversedNewEvent [] =
      [{ id := "99", title := "Backwards meeting", description := some "",
         start_time := "2024-01-16T15:00", end_time := "2024-01-16T14:00",
         location := some "" }] := by
  decide

/-- Claim C6 (amended): event creation validates only that the title is
non-blank and the start and end fields are non-empty; every such input is
appended as given — including when the end timestamp precedes the start
timestamp — and no ValidationError path exists. -/
theorem addEvent_no_time_validation (now : Nat) (newEvent : NewEvent) (events : List Event)
    (ht : strTrim newEvent.title ≠ "") (hs : newEvent.start_time ≠ "")
    (he : newEvent.end_time ≠ "") :
    addEvent now newEvent events =
      events ++
        [{ id := toString now, title := newEvent.title,
           description := some newEvent.description,
           start_time := newEvent.start_time, end_time := newEvent.end_time,
           location := some newEvent.location }] := by
  simp [addEvent, ht, hs, he]

/-- Witness for the amended claim C6 at the reversed-times form input. -/
theorem addEvent_no_time_validation_witness :
    strTrim reversedNewEvent.title ≠ "" ∧
    reversedNewEvent.start_time ≠ "" ∧
    reversedNewEvent.end_time ≠ "" ∧
    addEvent 99 reversedNewEvent [] =
      [] ++
        [{ id := toString 99, title := reversedNewEvent.title,
           description := some reversedNewEvent.description,
           start_time := reversedNewEvent.start_time,
           end_time := reversedNewEvent.end_time,
           location := some reversedNewEvent.location }] :=
  ⟨by decide, by decide, by decide,
   addEvent_no_time_validation 99 reversedNewEvent [] (by decide) (by decide) (by decide)⟩

/-! ## Claim C7 — displayed task order -/

/-- Filtering preserves any pairwise ordering of the task list. -/
theorem pairwise_filter_of_pairwise {R : Task → Task → Prop} (p : Task → Bool)
    (l : List Task) (h : l.Pairwise R) : (l.filter p).Pairwise R :=
  List.Pairwise.sublist (List.filter_sublist l) h

/-- A conditionally applied filter preserves any pairwise ordering. -/
theorem pairwise_ite_filter {R : Task → Task → Prop} (c : Prop) [Decidable c]
    (p : Task → Bool) (l : List Task) (h : l.Pairwise R) :
    (if c then l.filter p else l).Pairwise R := by
  split
  · exact pairwise_filter_of_pairwise _ _ h
  · exact h

/-- `filterTasks` preserves any pairwise ordering of the task list. -/
theorem filterTasks_pairwise {R : Task → Task → Prop} (filter searchTerm : String)
    (tasks : List Task) (h : tasks.Pairwise R) :
    (filterTasks filter searchTerm tasks).Pairwise R := by
  simp only [filterTasks]
  exact pairwise_ite_filter _ _ _ (pairwise_ite_filter _ _ _ h)

/-- Form inputs for two successive task creations. -/
def firstNewTask : NewTask :=
  { initialNewTask with title := "first created" }

/-- Form input for the second, later task creation. -/
def secondNewTask : NewTask :=
  { initialNewTask with title := "second created" }

/-- Claim C7 counterexample: a task list built by two successive creations is
displayed newest-first, so it is not sorted by creation time ascending. -/
theorem filterTasks_not_ascending :
    ¬ (filterTasks "all" "" (addTask 2 secondNewTask (addTask 1 firstNewTask []))).Pairwise
        (fun a b => a.created_at ≤ b.created_at) := by
  decide

/-- Claim C7 (amended): the displayed task list is ordered by creation time
descending (newest first) — `addTask` prepends each newly created task, and
`filterTasks` preserves the relative order. -/
theorem filterTasks_newest_first (now : Nat) (newTask : NewTask) (tasks : List Task)
    (filter searchTerm : String)
    (hnew : ∀ t ∈ tasks, t.created_at < now)
    (hsorted : tasks.Pairwise (fun a b => b.created_at ≤ a.created_at)) :
    (filterTasks filter searchTerm (addTask now newTask tasks)).Pairwise
      (fun a b => b.created_at ≤ a.created_at) := by
  apply filterTasks_pairwise
  unfold addTask
  split
  · exact hsorted
  · exact List.Pairwise.cons (fun t ht => le_of_lt (hnew t ht)) hsorted

/-- Witness for the amended claim C7: a third creation on top of the two
earlier ones keeps the displayed list sorted newest-first. -/
theorem filterTasks_newest_first_witness :
    (∀ t ∈ addTask 2 secondNewTask (addTask 1 firstNewTask []), t.created_at < 3) ∧
    (addTask 2 secondNewTask (addTask 1 firstNewTask [])).Pairwise
      (fun a b => b.created_at ≤ a.created_at) ∧
    (filterTasks "all" ""
        (addTask 3 { initialNewTask with title := "third created" }
          (addTask 2 secondNewTask (addTask 1 firstNewTask [])))).Pairwise
      (fun a b => b.created_at ≤ a.created_at) :=
  ⟨by decide, by decide,
   filterTasks_newest_first 3 { initialNewTask with title := "third created" }
     (addTask 2 secondNewTask (addTask 1 firstNewTask [])) "all" ""
     (by decide) (by decide)⟩

/-! ## Claim C8 — reachable status transitions are monotonic except reopen -/

/-- Claim C8: every status change reachable through the TaskManager UI moves
forward along pending → in_progress → completed, with the single exception of
the explicit reopen completed → pending; neither in_progress → pending nor
completed → in_progress is reachable. -/
theorem uiStatusStep_monotonic (s s' : TaskStatus) (hstep : UIStatusStep s s')
    (hne : s ≠ s') :
    (statusRank s < statusRank s' ∨
      (s = TaskStatus.completed ∧ s' = TaskStatus.pending)) ∧
    ¬ UIStatusStep TaskStatus.in_progress TaskStatus.pending ∧
    ¬ UIStatusStep TaskStatus.completed TaskStatus.in_progress := by
  refine ⟨?_, ?_, ?_⟩
  · cases hstep with
    | toggle s => cases s <;> decide
    | start => decide
    | complete => decide
  · intro hbad
    cases hbad
  · intro hbad
    cases hbad

/-- Witness for claim C8 at the Start-button transition pending → in_progress. -/
theorem uiStatusStep_monotonic_witness :
    UIStatusStep TaskStatus.pending TaskStatus.in_progress ∧
    TaskStatus.pending ≠ TaskStatus.in_progress ∧
    ((statusRank TaskStatus.pending < statusRank TaskStatus.in_progress ∨
        (TaskStatus.pending = TaskStatus.completed ∧
          TaskStatus.in_progress = TaskStatus.pending)) ∧
      ¬ UIStatusStep TaskStatus.in_progress TaskStatus.pending ∧
      ¬ UIStatusStep TaskStatus.completed TaskStatus.in_progress) :=
  ⟨UIStatusStep.start, by decide,
   uiStatusStep_monotonic TaskStatus.pending TaskStatus.in_progress UIStatusStep.start
     (by decide)⟩

/-! ## Claim C9 — accept/dismiss removes exactly the addressed suggestion -/

/-- Removing the suggestions carrying a present id shortens the list by
exactly one when the ids are pairwise distinct. -/
theorem length_filter_ne_id (l : List Suggestion)
    (hnodup : (l.map Suggestion.id).Nodup) (s : Suggestion) (hmem : s ∈ l) :
    (l.filter fun t => t.id ≠ s.id).length + 1 = l.length := by
  induction l with
  | nil => cases hmem
  | cons a rest ih =>
    simp only [List.map_cons, List.nodup_cons] at hnodup
    rcases List.mem_cons.mp hmem with heq | hmem'
    · subst heq
      have hall : ∀ t ∈ rest, (fun t : Suggestion => decide (t.id ≠ s.id)) t = true := by
        intro t ht
        simp only [decide_eq_true_eq]
        intro habs
        exact hnodup.1 (habs ▸ List.mem_map_of_mem Suggestion.id ht)
      rw [List.filter_cons, if_neg (by simp), List.filter_eq_self.mpr hall,
        List.length_cons]
    · have ha : a.id ≠ s.id := by
        intro habs
        exact hnodup.1 (habs ▸ List.mem_map_of_mem Suggestion.id hmem')
      have h2 := ih hnodup.2 hmem'
      rw [List.filter_cons, if_pos (by simpa using ha), List.length_cons,
        List.length_cons]
      omega

/-- Claim C9: accepting or dismissing a present suggestion removes exactly the
suggestion with that id, keeps every other suggestion in place and in order,
and the removal is terminal — reapplying the handler changes nothing more. -/
theorem handleSuggestionAction_removes_exactly (suggestions : List Suggestion)
    (s : Suggestion) (action : String)
    (hnodup : (suggestions.map Suggestion.id).Nodup) (hmem : s ∈ suggestions) :
    (handleSuggestionAction s.id action suggestions).Sublist suggestions ∧
    s ∉ handleSuggestionAction s.id action suggestions ∧
    (∀ t ∈ suggestions, t.id ≠ s.id → t ∈ handleSuggestionAction s.id action suggestions) ∧
    (handleSuggestionAction s.id action suggestions).length + 1 = suggestions.length ∧
    handleSuggestionAction s.id action (handleSuggestionAction s.id action suggestions) =
      handleSuggestionAction s.id action suggestions := by
  refine ⟨List.filter_sublist _, ?_, ?_, length_filter_ne_id _ hnodup _ hmem, ?_⟩
  · intro hs
    have := List.of_mem_filter hs
    simp at this
  · intro t ht hne
    exact List.mem_filter.mpr ⟨ht, by simpa using hne⟩
  · exact List.filter_eq_self.mpr fun a ha => (List.mem_filter.mp ha).2

/-- The break-reminder suggestion of the mock dashboard data. -/
def breakSuggestion : Suggestion :=
  { id := 2, type := "break_reminder", title := "Take a break",
    description := "You\x27ve been working for 2 hours. Consider a 15-minute break.",
    priority := "medium" }

/-- Witness for claim C9: dismissing the break-reminder suggestion of the mock
dashboard data. -/
theorem handleSuggestionAction_removes_exactly_witness :
    (mockSuggestions.map Suggestion.id).Nodup ∧
    breakSuggestion ∈ mockSuggestions ∧
    ((handleSuggestionAction breakSuggestion.id "dismiss" mockSuggestions).Sublist
        mockSuggestions ∧
      breakSuggestion ∉ handleSuggestionAction breakSuggestion.id "dismiss" mockSuggestions ∧
      (∀ t ∈ mockSuggestions, t.id ≠ breakSuggestion.id →
        t ∈ handleSuggestionAction breakSuggestion.id "dismiss" mockSuggestions) ∧
      (handleSuggestionAction breakSuggestion.id "dismiss" mockSuggestions).length + 1 =
        mockSuggestions.length ∧
      handleSuggestionAction breakSuggestion.id "dismiss"
          (handleSuggestionAction breakSuggestion.id "dismiss" mockSuggestions) =
        handleSuggestionAction breakSuggestion.id "dismiss" mockSuggestions) :=
  ⟨by decide, by decide,
   handleSuggestionAction_removes_exactly mockSuggestions breakSuggestion "dismiss"
     (by decide) (by decide)⟩

/-! ## Claim C10 — accept and dismiss are observationally identical -/

/-- Claim C10: running the suggestion-action handler with action "accept"
yields exactly the same resulting state as running it with action "dismiss",
and for every action the task and event state pass through unchanged. -/
theorem accept_dismiss_equivalent (suggestionId : Nat) (st : DashboardState) :
    handleSuggestionActionState suggestionId "accept" st =
      handleSuggestionActionState suggestionId "dismiss" st ∧
    (∀ action : String,
      (handleSuggestionActionState suggestionId action st).tasks = st.tasks ∧
      (handleSuggestionActionState suggestionId action st).events = st.events) :=
  ⟨rfl, fun _ => ⟨rfl, rfl⟩⟩

/-! ## Claim C2 — chat failures degrade to the fixed fallback text -/

/-- Claim C2: when the chat round trip fails, the conversation receives the
user message followed by the fixed MindFlow-attributed fallback message —
never the error text — and the result is the same whatever the error was. -/
theorem sendMessage_failure_fallback (now : Nat) (inputValue : String)
    (messages : List Message) (error : String)
    (h : strTrim inputValue ≠ "") :
    sendMessage now inputValue false messages (ChatOutcome.failed error) =
      messages ++
        [{ id := toString now, content := inputValue, sender := Sender.user,
           agent := none, timestamp := now },
         { id := toString (now + 1), content := fallbackContent, sender := Sender.agent,
           agent := some "MindFlow", timestamp := now }] ∧
    (∀ e : String,
      sendMessage now inputValue false messages (ChatOutcome.failed error) =
        sendMessage now inputValue false messages (ChatOutcome.failed e)) := by
  constructor
  · simp [sendMessage, h]
  · intro e
    simp [sendMessage, h]

/-- Witness for claim C2: a failed round trip for the quick action
"Show my tasks" appends the fallback message, whatever the error was. -/
theorem sendMessage_failure_fallback_witness :
    strTrim "Show my tasks" ≠ "" ∧
    (sendMessage 7 "Show my tasks" false [] (ChatOutcome.failed "Failed to get response") =
        [] ++
          [{ id := toString 7, content := "Show my tasks", sender := Sender.user,
             agent := none, timestamp := 7 },
           { id := toString (7 + 1), content := fallbackContent, sender := Sender.agent,
             agent := some "MindFlow", timestamp := 7 }] ∧
      (∀ e : String,
        sendMessage 7 "Show my tasks" false [] (ChatOutcome.failed "Failed to get response") =
          sendMessage 7 "Show my tasks" false [] (ChatOutcome.failed e))) :=
  ⟨by decide,
   sendMessage_failure_fallback 7 "Show my tasks" [] "Failed to get response" (by decide)⟩

/-! ## Claim C1 — routing is total and deterministic -/

/-- Claim C1 (router modelled from the spec): a message matching a TaskFlow
intent pattern routes to TaskFlow — TaskFlow is the highest-priority agent,
so no higher-priority pattern can preempt it — and routing is a total
function: every message yields exactly one routing decision, with no
unhandled-intent outcome. -/
theorem route_taskflow_total (message : String)
    (h : matchesPatterns taskFlowPatterns message = true) :
    route message = Agent.TaskFlow ∧ ∀ m : String, ∃! a : Agent, route m = a := by
  refine ⟨by simp [route, h], fun m => ⟨route m, rfl, fun a ha => ha.symm⟩⟩

/-- Witness for claim C1 at the message "add task Review reports" of spec
scenario 1, which contains the TaskFlow pattern "add task". -/
theorem route_taskflow_total_witness :
    matchesPatterns taskFlowPatterns "add task Review reports" = true ∧
    (route "add task Review reports" = Agent.TaskFlow ∧
      ∀ m : String, ∃! a : Agent, route m = a) :=
  ⟨by decide, route_taskflow_total "add task Review reports" (by decide)⟩

end FlowMind
